import Mathlib

/-!
Verification of the Sih civic-report backend (report lifecycle, classification
reconciliation, upvoting, reputation ledger) against its specification.

The JavaScript controllers and Mongoose models are shallowly embedded as pure
Lean functions over explicit state:

* a Mongoose collection is a `List` of documents; `findById` is `List.find?`
  on the document id and `doc.save()` / `findByIdAndUpdate` replace the
  document with the matching id (`saveReport`);
* request handlers become functions from state (and request parameters) to
  a pair of the new state and the HTTP status code (plus any payload the
  handler returns, such as the new upvote count);
* JavaScript truthiness on numbers (`!latitude`) is modelled explicitly:
  an absent value or the number 0 is falsy (`jsFalsyNum`), and truthiness
  on strings means non-emptiness (`jsOrString`);
* best-effort side channels (blockchain notary, push notifications,
  Socket.IO fanout, Cloudinary uploads) never touch the primary state and
  are omitted; the geospatial match of a `$near` / `$geoWithin` clause is
  an opaque predicate parameter, while the `reportStatus` part of each
  query filter is embedded literally.
-/

namespace Sih

/-- Report lifecycle states (`reportStatus` enum of the Report schema). -/
inductive ReportStatus
  | SUBMITTED
  | ACKNOWLEDGED
  | RESOLVED
  | DELETED
  deriving DecidableEq

/-- User badges (`badge` enum of the User schema). -/
inductive Badge
  | Bronze
  | Silver
  | Gold
  | Platinum
  deriving DecidableEq

/-- Reputation-relevant subset of the User document (models/User schema). -/
structure User where
  id : Nat
  points : Nat
  monthlyPoints : Nat
  badge : Badge
  deriving DecidableEq

/-- The badge determined by a point total: the threshold chain of
`userSchema.methods.updateBadge` (≥1000 Platinum, ≥500 Gold, ≥200 Silver,
else Bronze). -/
def badgeFor (points : Nat) : Badge :=
  if points ≥ 1000 then .Platinum
  else if points ≥ 500 then .Gold
  else if points ≥ 200 then .Silver
  else .Bronze

/-- `userSchema.methods.updateBadge`: recompute the badge from `points`;
returns the updated user and whether the badge changed. -/
def User.updateBadge (u : User) : User × Bool :=
  let newBadge : Badge :=
    if u.points ≥ 1000 then .Platinum
    else if u.points ≥ 500 then .Gold
    else if u.points ≥ 200 then .Silver
    else .Bronze
  if u.badge ≠ newBadge then ({ u with badge := newBadge }, true) else (u, false)

/-- `userSchema.methods.addPoints`: add to `points` and `monthlyPoints`,
then recompute the badge. -/
def User.addPoints (u : User) (points : Nat) : User :=
  (User.updateBadge { u with points := u.points + points,
                             monthlyPoints := u.monthlyPoints + points }).1

theorem User.updateBadge_fst (u : User) :
    (User.updateBadge u).1 = { u with badge := badgeFor u.points } := by
  unfold User.updateBadge badgeFor
  by_cases h : u.badge = (if u.points ≥ 1000 then Badge.Platinum
      else if u.points ≥ 500 then .Gold else if u.points ≥ 200 then .Silver else .Bronze)
  · simp only [h, ne_eq, not_true_eq_false, if_false]
    cases u
    simp_all
  · simp [h]

/-- Report document (models/Report schema), restricted to the fields the
controllers read or write.  Ids (`_id`, `userId`, the entries of
`upvotedBy`, `acknowledgedBy`) are modelled as `Nat`; `severity` and
`department` are the schema's string enums carried as `String` (the webhook
updates bypass Mongoose enum validation); `mlConfidence` is the classifier's
pair of confidence scores, carried opaquely as rationals; `acknowledgedAt`
is a timestamp carried as `Nat`. -/
structure Report where
  id : Nat
  title : String
  description : String
  reportStatus : ReportStatus
  severity : String
  department : String
  userId : Nat
  upvotes : Int
  upvotedBy : List Nat
  mlClassified : Bool
  mlSeverity : Option String
  mlDepartment : Option String
  mlTitle : Option String
  mlConflicts : Option String
  mlConfidence : Option (Rat × Rat)
  isAcknowledged : Bool
  acknowledgedAt : Option Nat
  acknowledgedBy : Option Nat
  deriving DecidableEq

/-- `Report.findById`: first document whose id matches. -/
def findReport (db : List Report) (reportId : Nat) : Option Report :=
  db.find? (fun r => decide (r.id = reportId))

/-- `report.save()` / `findByIdAndUpdate`: store the (mutated) document back
into the collection under its id. -/
def saveReport (db : List Report) (r : Report) : List Report :=
  db.map (fun p => if p.id = r.id then r else p)

/-- `User.findById`. -/
def getUser (users : List User) (userId : Nat) : Option User :=
  users.find? (fun u => decide (u.id = userId))

/-- Find a user by id and, when present, save the mutated document
(`User.findById` followed by `user.save()`). -/
def setUser (users : List User) (userId : Nat) (f : User → User) : List User :=
  users.map (fun u => if u.id = userId then f u else u)

/-- The whole mutable application state: the Report and User collections. -/
structure AppState where
  reports : List Report
  users : List User
  deriving DecidableEq

/-! ## Report controller (src/services/mlService.js, controller part) -/

/-- Data of the document `createReport` builds (`reportData` in the source;
`coordinates` is the GeoJSON `[longitude, latitude]` list). -/
structure ReportData where
  title : String
  description : String
  coordinates : List Rat
  address : Option String
  department : String
  severity : String
  userId : Nat
  reportStatus : ReportStatus
  deriving DecidableEq

/-- Outcome of `createReport`: HTTP status, the error message (if any), the
created document data (if any), and whether a classification job was
queued. -/
structure CreateResult where
  status : Nat
  error : Option String
  created : Option ReportData
  queued : Bool
  deriving DecidableEq

/-- JavaScript falsiness of an optional numeric request field: `!x` is true
when the field is absent or its value is the number 0. -/
def jsFalsyNum (x : Option Rat) : Bool :=
  match x with
  | none => true
  | some v => decide (v = 0)

/-- JavaScript `x || d` for an optional string field: the default is taken
when the field is absent or the empty string. -/
def jsOrString (x : Option String) (d : String) : String :=
  match x with
  | none => d
  | some s => if s == "" then d else s

/-- `createReport`: validates the coordinates (`!latitude || !longitude`,
then the range check), then builds `reportData` with coordinates in
`[longitude, latitude]` order and creates the document; the classification
job is queued (after creation only) unless `DISABLE_ML_PROCESSING` is set,
which the parameter `mlEnabled` reflects.  `parseFloat` on an
already-numeric value is the identity.  The Cloudinary media uploads and
the fire-and-forget blockchain call do not touch the collections and are
omitted. -/
def createReport (mlEnabled : Bool) (title description category : Option String)
    (latitude longitude : Option Rat) (address : Option String)
    (userId : Nat) : CreateResult :=
  if jsFalsyNum latitude || jsFalsyNum longitude then
    { status := 400, error := some "Latitude and longitude are required",
      created := none, queued := false }
  else
    let lat := latitude.getD 0
    let lng := longitude.getD 0
    if lat < -90 ∨ lat > 90 ∨ lng < -180 ∨ lng > 180 then
      { status := 400, error := some "Invalid coordinates",
        created := none, queued := false }
    else
      { status := 201, error := none,
        created := some
          { title := jsOrString title "Processing...",
            description := jsOrString description "",
            coordinates := [lng, lat],
            address := address,
            department := jsOrString category "Processing",
            severity := "MEDIUM",
            userId := userId,
            reportStatus := .SUBMITTED },
        queued := mlEnabled }

/-- `acknowledgeReport` (report route): 404 when absent, 400 unless the
status is SUBMITTED, else set the status to ACKNOWLEDGED and save.  It does
not touch `isAcknowledged`, `acknowledgedAt` or `acknowledgedBy`. -/
def acknowledgeReport (db : List Report) (reportId : Nat) : List Report × Nat :=
  match findReport db reportId with
  | none => (db, 404)
  | some report =>
    if report.reportStatus ≠ .SUBMITTED then (db, 400)
    else (saveReport db { report with reportStatus := .ACKNOWLEDGED }, 200)

/-- `resolveReport` (admin-or-owner route): 404 when absent, 400 unless the
status is SUBMITTED or ACKNOWLEDGED, else set the status to RESOLVED and
save.  The handler never touches the User collection: it awards no points.
The blockchain call is a logged best-effort side channel, omitted. -/
def resolveReport (s : AppState) (reportId : Nat) : AppState × Nat :=
  match findReport s.reports reportId with
  | none => (s, 404)
  | some report =>
    if ¬(report.reportStatus = .SUBMITTED ∨ report.reportStatus = .ACKNOWLEDGED) then
      (s, 400)
    else
      ({ s with reports := saveReport s.reports { report with reportStatus := .RESOLVED } }, 200)

/-- `deleteReport` (admin route): 404 when absent, otherwise set the status
to DELETED and save; the document itself is retained. -/
def deleteReport (db : List Report) (reportId : Nat) : List Report × Nat :=
  match findReport db reportId with
  | none => (db, 404)
  | some report => (saveReport db { report with reportStatus := .DELETED }, 200)

/-- Award `n` points to the user with the given id when it exists: the
inline `points += n; monthlyPoints += n; updateBadge(); save()` sequence of
`updateReportStatusResolve`. -/
def awardPoints (users : List User) (userId : Nat) (n : Nat) : List User :=
  setUser users userId (fun u =>
    (User.updateBadge { u with points := u.points + n,
                               monthlyPoints := u.monthlyPoints + n }).1)

/-- The `for (const upvoter of report.upvotedBy)` loop of
`updateReportStatusResolve`: award 5 points to each listed upvoter in
order. -/
def awardUpvoters (users : List User) (upvoters : List Nat) : List User :=
  upvoters.foldl (fun us uid => awardPoints us uid 5) users

/-- `updateReportStatusResolve` (owner route): 404 when absent, 403 unless
the caller owns the report, 400 unless the status is ACKNOWLEDGED; else set
the status to RESOLVED, save, and — keyed on the pre-transition status not
being RESOLVED — award 20 points to the submitter and 5 to each entry of
`upvotedBy`, recomputing badges.  Push notification and response payload
side channels are omitted. -/
def updateReportStatusResolve (s : AppState) (reportId userId : Nat) :
    AppState × Nat :=
  match findReport s.reports reportId with
  | none => (s, 404)
  | some report =>
    if report.userId ≠ userId then (s, 403)
    else if report.reportStatus ≠ .ACKNOWLEDGED then (s, 400)
    else
      let oldStatus := report.reportStatus
      let reports := saveReport s.reports { report with reportStatus := .RESOLVED }
      let users :=
        if oldStatus ≠ .RESOLVED then
          awardUpvoters (awardPoints s.users report.userId 20) report.upvotedBy
        else s.users
      ({ reports := reports, users := users }, 200)

/-- `upvoteReport`: 404 when absent, 400 when the report is DELETED;
toggle: when the caller is already in `upvotedBy`, decrement `upvotes` and
filter the caller out, else increment and append.  Returns the new upvote
count.  (The ObjectId format regex concerns the string form of ids and is
outside this embedding.) -/
def upvoteReport (db : List Report) (reportId userId : Nat) :
    List Report × Nat × Option Int :=
  match findReport db reportId with
  | none => (db, 404, none)
  | some report =>
    if report.reportStatus = .DELETED then (db, 400, none)
    else if userId ∈ report.upvotedBy then
      let report' := { report with
        upvotes := report.upvotes - 1,
        upvotedBy := report.upvotedBy.filter (fun i => i != userId) }
      (saveReport db report', 200, some report'.upvotes)
    else
      let report' := { report with
        upvotes := report.upvotes + 1,
        upvotedBy := report.upvotedBy ++ [userId] }
      (saveReport db report', 200, some report'.upvotes)

/-! ## Webhook Reconciler -/

/-- The classifier's webhook payload (`req.body.classification`). -/
structure Classification where
  severity : String
  department : String
  title : Option String
  confidence : Rat × Rat
  conflicts : Option String
  deriving DecidableEq

/-- Truthiness guard on the proposed title:
`classification.title && classification.title !== 'No title'`. -/
def titleOk (c : Classification) : Bool :=
  match c.title with
  | none => false
  | some t => !(t == "") && !(t == "No title")

/-- Truthiness guard on `classification.conflicts`. -/
def conflictsOk (c : Classification) : Bool :=
  match c.conflicts with
  | none => false
  | some t => !(t == "")

/-- The `updateData` of `mlWebhook` applied to a report document: set the
ML shadow fields and overwrite `department`/`severity`; store the proposed
title (into `title` and `mlTitle`) only under `titleOk`; store `conflicts`
only when truthy. -/
def applyClassification (c : Classification) (r : Report) : Report :=
  let r1 := { r with
    mlClassified := true,
    mlSeverity := some c.severity,
    mlDepartment := some c.department,
    mlConfidence := some c.confidence,
    department := c.department,
    severity := c.severity }
  let r2 :=
    if titleOk c then { r1 with title := c.title.getD "", mlTitle := c.title }
    else r1
  if conflictsOk c then { r2 with mlConflicts := c.conflicts } else r2

/-- `mlWebhook`: `findByIdAndUpdate` with `updateData`.  When the id
matches no report, `findByIdAndUpdate` returns null, nothing is checked,
and the handler still answers 200 with a null `updatedReport`. -/
def mlWebhook (s : AppState) (reportId : Nat) (c : Classification) :
    AppState × Nat × Option Report :=
  match findReport s.reports reportId with
  | none => (s, 200, none)
  | some report =>
    let report' := applyClassification c report
    ({ s with reports := saveReport s.reports report' }, 200, some report')

/-! ## Admin controller (adminController part of the source) -/

/-- `updateReportAcknowledge` (admin route): `findByIdAndUpdate` that
unconditionally stamps `isAcknowledged`/`acknowledgedAt`/`acknowledgedBy`
and sets the status to ACKNOWLEDGED — there is no guard on the current
status; 404 only when the id matches no report. -/
def updateReportAcknowledge (db : List Report) (reportId adminId now : Nat) :
    List Report × Nat :=
  match findReport db reportId with
  | none => (db, 404)
  | some report =>
    (saveReport db { report with
        isAcknowledged := true,
        acknowledgedAt := some now,
        acknowledgedBy := some adminId,
        reportStatus := .ACKNOWLEDGED }, 200)

/-- Admin `getAllReports`: `Report.find()` with no filter at all (sorting
and population do not affect membership and are omitted). -/
def adminGetAllReports (db : List Report) : List Report :=
  db

/-! ## Listing queries (membership view: populate/sort/limit omitted; the
`$near` / `$geoWithin` geospatial clause is an opaque predicate). -/

/-- `getNearbyReports` query filter. -/
def getNearbyReports (db : List Report) (geo : Report → Bool) : List Report :=
  db.filter (fun r => decide (r.reportStatus ≠ .DELETED) && geo r)

/-- `getReportsInBounds` query filter. -/
def getReportsInBounds (db : List Report) (box : Report → Bool) : List Report :=
  db.filter (fun r => decide (r.reportStatus ≠ .DELETED) && box r)

/-- `getNearbyReportsByDepartment` query filter. -/
def getNearbyReportsByDepartment (db : List Report) (department : String)
    (geo : Report → Bool) : List Report :=
  db.filter (fun r =>
    decide (r.reportStatus ≠ .DELETED) && (r.department == department) && geo r)

/-- `getUserReports` query filter. -/
def getUserReports (db : List Report) (userId : Nat) : List Report :=
  db.filter (fun r => (r.userId == userId) && decide (r.reportStatus ≠ .DELETED))

/-- `getAllReports` of the report controller: the filter starts as
`reportStatus ≠ DELETED`, but an explicit `status` query parameter
replaces that clause, and a `department` parameter adds one. -/
def getAllReports (db : List Report) (status : Option ReportStatus)
    (department : Option String) : List Report :=
  db.filter (fun r =>
    (match status with
     | none => decide (r.reportStatus ≠ .DELETED)
     | some st => decide (r.reportStatus = st)) &&
    (match department with
     | none => true
     | some d => r.department == d))

/-! ## Collection lemmas -/

theorem findReport_some_id {db : List Report} {reportId : Nat} {r : Report}
    (h : findReport db reportId = some r) : r.id = reportId := by
  unfold findReport at h
  simpa using List.find?_some h

theorem getUser_some_id {users : List User} {x : Nat} {u : User}
    (h : getUser users x = some u) : u.id = x := by
  unfold getUser at h
  simpa using List.find?_some h

theorem findReport_saveReport_of_ne (db : List Report) (r : Report) {x : Nat}
    (h : x ≠ r.id) : findReport (saveReport db r) x = findReport db x := by
  induction db with
  | nil => rfl
  | cons a t ih =>
    simp only [saveReport, findReport, List.map_cons, List.find?_cons] at ih ⊢
    by_cases har : a.id = r.id
    · have hrx : ¬r.id = x := fun hh => h hh.symm
      have hax : ¬a.id = x := fun hh => h (by rw [← hh, har])
      simp only [if_pos har, decide_eq_false hrx, decide_eq_false hax]
      exact ih
    · simp only [if_neg har]
      by_cases hax : a.id = x
      · simp [hax]
      · simp only [decide_eq_false hax]
        exact ih

theorem findReport_saveReport_self (db : List Report) (r' : Report)
    (h : (findReport db r'.id).isSome) :
    findReport (saveReport db r') r'.id = some r' := by
  induction db with
  | nil => simp [findReport] at h
  | cons a t ih =>
    simp only [saveReport, findReport, List.map_cons, List.find?_cons] at ih h ⊢
    by_cases ha : a.id = r'.id
    · simp [ha]
    · simp only [if_neg ha, decide_eq_false ha] at h ⊢
      exact ih h

theorem saveReport_saveReport (db : List Report) (r : Report) :
    saveReport (saveReport db r) r = saveReport db r := by
  induction db with
  | nil => rfl
  | cons a t ih =>
    show (if (if a.id = r.id then r else a).id = r.id then r
          else (if a.id = r.id then r else a)) ::
        saveReport (saveReport t r) r = (if a.id = r.id then r else a) :: saveReport t r
    by_cases ha : a.id = r.id <;> simp [ha, ih]

/-! ## Reputation lemmas: a closed form for the award loop -/

/-- Net effect on one user of receiving `k` points across the awards of a
resolve transition: both counters increase by `k` and, when the user
received at least one award, the badge was recomputed from the final point
total. -/
def afterAwards (u : User) (k : Nat) : User :=
  if k = 0 then u
  else { u with points := u.points + k, monthlyPoints := u.monthlyPoints + k,
                badge := badgeFor (u.points + k) }

theorem afterAwards_id (u : User) (k : Nat) : (afterAwards u k).id = u.id := by
  unfold afterAwards
  split <;> rfl

theorem afterAwards_afterAwards (u : User) (a b : Nat) :
    afterAwards (afterAwards u a) b = afterAwards u (a + b) := by
  unfold afterAwards
  by_cases hb : b = 0
  · simp [hb]
  · by_cases ha : a = 0
    · simp [ha, hb]
    · have hab : ¬(a + b = 0) := by omega
      simp [ha, hb, hab, Nat.add_assoc]

theorem awardPoints_fun (u : User) (n : Nat) (hn : n ≠ 0) :
    (User.updateBadge { u with points := u.points + n,
                               monthlyPoints := u.monthlyPoints + n }).1 =
      afterAwards u n := by
  rw [User.updateBadge_fst]
  simp [afterAwards, hn]

theorem getUser_setUser (users : List User) (i x : Nat) (f : User → User)
    (hf : ∀ u, (f u).id = u.id) :
    getUser (setUser users i f) x =
      (getUser users x).map (fun u => if u.id = i then f u else u) := by
  induction users with
  | nil => rfl
  | cons a t ih =>
    have hid : (if a.id = i then f a else a).id = a.id := by
      split
      · exact hf a
      · rfl
    simp only [setUser, getUser, List.map_cons, List.find?_cons] at ih ⊢
    rw [hid]
    by_cases hax : a.id = x
    · simp [hax]
    · simp only [decide_eq_false hax]
      exact ih

theorem getUser_awardPoints (users : List User) (i n x : Nat) (hn : n ≠ 0) :
    getUser (awardPoints users i n) x =
      (getUser users x).map (fun u => if x = i then afterAwards u n else u) := by
  unfold awardPoints
  rw [getUser_setUser]
  · cases h : getUser users x with
    | none => rfl
    | some u =>
      have hux : u.id = x := getUser_some_id h
      simp only [Option.map_some']
      rw [awardPoints_fun _ _ hn, hux]
  · intro u
    rw [awardPoints_fun _ _ hn, afterAwards_id]

theorem getUser_awardUpvoters (l : List Nat) (users : List User) (x : Nat) :
    getUser (awardUpvoters users l) x =
      (getUser users x).map (fun u => afterAwards u (5 * l.count x)) := by
  induction l generalizing users with
  | nil =>
    cases h : getUser users x <;> simp [awardUpvoters, afterAwards, h]
  | cons a t ih =>
    have step : awardUpvoters users (a :: t) = awardUpvoters (awardPoints users a 5) t := rfl
    rw [step, ih, getUser_awardPoints _ _ _ _ (by norm_num)]
    cases h : getUser users x with
    | none => rfl
    | some u =>
      simp only [Option.map_some']
      by_cases hxa : x = a
      · subst hxa
        rw [if_pos rfl, afterAwards_afterAwards]
        have hc : (x :: t).count x = t.count x + 1 := by simp [List.count_cons]
        have harith : 5 * (t.count x + 1) = 5 + 5 * t.count x := by omega
        rw [hc, harith]
      · rw [if_neg hxa]
        have hc : (a :: t).count x = t.count x := by
          simp [List.count_cons, hxa]
        rw [hc]

theorem getUser_resolveAwards (users : List User) (sub : Nat) (l : List Nat)
    (x : Nat) :
    getUser (awardUpvoters (awardPoints users sub 20) l) x =
      (getUser users x).map
        (fun u => afterAwards u ((if x = sub then 20 else 0) + 5 * l.count x)) := by
  rw [getUser_awardUpvoters, getUser_awardPoints _ _ _ _ (by norm_num)]
  cases h : getUser users x with
  | none => simp
  | some u =>
    simp only [Option.map_some']
    by_cases hxs : x = sub
    · simp [hxs, afterAwards_afterAwards]
    · simp [hxs]

theorem findReport_save_update {db : List Report} {reportId : Nat} {r r' : Report}
    (h : findReport db reportId = some r) (hid : r'.id = r.id) :
    findReport (saveReport db r') reportId = some r' := by
  have hr : r.id = reportId := findReport_some_id h
  rw [← hr, ← hid]
  exact findReport_saveReport_self _ _ (by rw [hid, hr, h]; rfl)

/-! ## Reconciler lemmas -/

theorem applyClassification_id (c : Classification) (r : Report) :
    (applyClassification c r).id = r.id := by
  unfold applyClassification
  by_cases ht : titleOk c <;> by_cases hc : conflictsOk c <;> simp [ht, hc]

theorem applyClassification_idem (c : Classification) (r : Report) :
    applyClassification c (applyClassification c r) = applyClassification c r := by
  unfold applyClassification
  by_cases ht : titleOk c <;> by_cases hc : conflictsOk c <;> simp [ht, hc]

theorem applyClassification_preserves (c : Classification) (r : Report) :
    (applyClassification c r).reportStatus = r.reportStatus ∧
    (applyClassification c r).upvotes = r.upvotes ∧
    (applyClassification c r).upvotedBy = r.upvotedBy := by
  unfold applyClassification
  by_cases ht : titleOk c <;> by_cases hc : conflictsOk c <;> simp [ht, hc]

/-! ## Lifecycle transition lemmas -/

theorem updateReportStatusResolve_ack {s : AppState} {reportId userId : Nat}
    {r : Report} (h : findReport s.reports reportId = some r)
    (hu : r.userId = userId) (hs : r.reportStatus = .ACKNOWLEDGED) :
    updateReportStatusResolve s reportId userId =
      ({ reports := saveReport s.reports { r with reportStatus := .RESOLVED },
         users := awardUpvoters (awardPoints s.users r.userId 20) r.upvotedBy },
       200) := by
  unfold updateReportStatusResolve
  rw [h]
  dsimp only
  rw [if_neg (fun hh => hh hu), if_neg (fun hh => hh hs),
    if_pos (by rw [hs]; exact fun hh => ReportStatus.noConfusion hh)]

theorem resolveReport_ok {s : AppState} {reportId : Nat} {r : Report}
    (h : findReport s.reports reportId = some r)
    (hs : r.reportStatus = .SUBMITTED ∨ r.reportStatus = .ACKNOWLEDGED) :
    resolveReport s reportId =
      ({ s with reports := saveReport s.reports { r with reportStatus := .RESOLVED } },
       200) := by
  unfold resolveReport
  rw [h]
  dsimp only
  rw [if_neg (fun hh => hh hs)]

/-! ## Concrete fixtures -/

/-- A concrete SUBMITTED report, owned by user 10. -/
def baseReport : Report :=
  { id := 1, title := "Pothole on 5th", description := "large pothole",
    reportStatus := .SUBMITTED, severity := "MEDIUM", department := "Roads",
    userId := 10, upvotes := 0, upvotedBy := [],
    mlClassified := false, mlSeverity := none, mlDepartment := none,
    mlTitle := none, mlConflicts := none, mlConfidence := none,
    isAcknowledged := false, acknowledgedAt := none, acknowledgedBy := none }

/-- The submitting user, with no points yet. -/
def submitter : User := { id := 10, points := 0, monthlyPoints := 0, badge := .Bronze }

/-- A second user who upvoted the report. -/
def upvoter : User := { id := 11, points := 0, monthlyPoints := 0, badge := .Bronze }

/-- State with one SUBMITTED report and its submitter. -/
def stateSubmitted : AppState := { reports := [baseReport], users := [submitter] }

/-- The same report after acknowledgement and one upvote by user 11. -/
def ackReport : Report :=
  { baseReport with reportStatus := .ACKNOWLEDGED, upvotes := 1, upvotedBy := [11] }

/-- State with one ACKNOWLEDGED report, its submitter and the upvoter. -/
def stateAcknowledged : AppState :=
  { reports := [ackReport], users := [submitter, upvoter] }

/-- The report after an admin resolved it. -/
def resolvedReport : Report := { baseReport with reportStatus := .RESOLVED }

/-- Empty collections. -/
def emptyState : AppState := { reports := [], users := [] }

/-- A concrete classifier result. -/
def sampleClassification : Classification :=
  { severity := "HIGH", department := "Roads", title := some "Deep pothole",
    confidence := (9/10, 8/10), conflicts := none }

/-! ## Claim C7 -/

/-- C7: `addPoints(n)` increments both `points` and `monthlyPoints` by `n`
and recomputes the badge as the highest satisfied threshold
(≥1000 Platinum, ≥500 Gold, ≥200 Silver, else Bronze); for point totals
0, 199, 200, 499, 500, 999, 1000 the recomputed badges are Bronze, Bronze,
Silver, Silver, Gold, Gold, Platinum. -/
theorem C7_reputation_addPoints :
    (∀ (u : User) (n : Nat),
        (User.addPoints u n).points = u.points + n ∧
        (User.addPoints u n).monthlyPoints = u.monthlyPoints + n ∧
        (User.addPoints u n).badge = badgeFor (u.points + n)) ∧
    ((User.updateBadge { submitter with points := 0 }).1.badge = .Bronze ∧
     (User.updateBadge { submitter with points := 199 }).1.badge = .Bronze ∧
     (User.updateBadge { submitter with points := 200 }).1.badge = .Silver ∧
     (User.updateBadge { submitter with points := 499 }).1.badge = .Silver ∧
     (User.updateBadge { submitter with points := 500 }).1.badge = .Gold ∧
     (User.updateBadge { submitter with points := 999 }).1.badge = .Gold ∧
     (User.updateBadge { submitter with points := 1000 }).1.badge = .Platinum) := by
  constructor
  · intro u n
    unfold User.addPoints
    rw [User.updateBadge_fst]
    exact ⟨rfl, rfl, rfl⟩
  · decide

/-! ## Claims C8 and C10: createReport coordinate handling -/

/-- C8 counterexample: the in-range pair (lat 0, lng 77.59) is rejected by
`createReport` with the missing-coordinates error and no document is
created, refuting the claim that every pair with lat ∈ [-90,90] and
lng ∈ [-180,180] is stored. -/
theorem C8_coordinates_counterexample :
    createReport true none none none (some 0) (some (7759/100)) none 10 =
      { status := 400, error := some "Latitude and longitude are required",
        created := none, queued := false } ∧
    (-90 : Rat) ≤ 0 ∧ (0 : Rat) ≤ 90 ∧ (-180 : Rat) ≤ 7759/100 ∧
    (7759/100 : Rat) ≤ 180 := by
  refine ⟨by decide, by norm_num, by norm_num, by norm_num, by norm_num⟩

/-- C8 amended: for every coordinate pair with lat ∈ [-90,90], lng ∈
[-180,180] and both nonzero (zero is caught by the JavaScript falsiness
presence check first), `createReport` stores the coordinates in
(longitude, latitude) order; any request with lat ∉ [-90,90] or lng ∉
[-180,180] is rejected with status 400 before any document is created or
any classification job is queued. -/
theorem C8_coordinates_amended :
    (∀ (mlE : Bool) (t d cat addr : Option String) (lat lng : Rat) (uid : Nat),
        lat ≠ 0 → lng ≠ 0 →
        -90 ≤ lat → lat ≤ 90 → -180 ≤ lng → lng ≤ 180 →
        createReport mlE t d cat (some lat) (some lng) addr uid =
          { status := 201, error := none,
            created := some
              { title := jsOrString t "Processing...",
                description := jsOrString d "",
                coordinates := [lng, lat],
                address := addr,
                department := jsOrString cat "Processing",
                severity := "MEDIUM", userId := uid,
                reportStatus := .SUBMITTED },
            queued := mlE }) ∧
    (∀ (mlE : Bool) (t d cat addr : Option String) (lat lng : Rat) (uid : Nat),
        (lat < -90 ∨ lat > 90 ∨ lng < -180 ∨ lng > 180) →
        (createReport mlE t d cat (some lat) (some lng) addr uid).status = 400 ∧
        (createReport mlE t d cat (some lat) (some lng) addr uid).created = none ∧
        (createReport mlE t d cat (some lat) (some lng) addr uid).queued = false) := by
  constructor
  · intro mlE t d cat addr lat lng uid h0lat h0lng h1 h2 h3 h4
    unfold createReport jsFalsyNum
    dsimp only [Option.getD_some]
    rw [decide_eq_false h0lat, decide_eq_false h0lng]
    have hrange : ¬(lat < -90 ∨ lat > 90 ∨ lng < -180 ∨ lng > 180) := by
      push_neg
      exact ⟨by linarith, by linarith, by linarith, by linarith⟩
    simp only [Bool.or_self, Bool.false_or, Bool.or_false, if_false,
      Bool.false_eq_true, if_neg hrange]
  · intro mlE t d cat addr lat lng uid hr
    unfold createReport jsFalsyNum
    dsimp only [Option.getD_some]
    by_cases h0lat : lat = 0
    · simp [h0lat]
    · by_cases h0lng : lng = 0
      · simp [h0lng]
      · rw [decide_eq_false h0lat, decide_eq_false h0lng]
        simp only [Bool.or_self, Bool.false_or, Bool.or_false, if_false,
          Bool.false_eq_true, if_pos hr]
        exact ⟨trivial, trivial, trivial⟩

/-- C8 witness: creating a report at (lat 12.97, lng 77.59) succeeds and
stores coordinates [77.59, 12.97], i.e. (longitude, latitude) order. -/
theorem C8_coordinates_witness :
    createReport true none none none (some (1297/100)) (some (7759/100)) none 10 =
      { status := 201, error := none,
        created := some
          { title := "Processing...", description := "",
            coordinates := [7759/100, 1297/100], address := none,
            department := "Processing", severity := "MEDIUM", userId := 10,
            reportStatus := .SUBMITTED },
        queued := true } := by
  have h := C8_coordinates_amended.1 true none none none none (1297/100) (7759/100) 10
    (by norm_num) (by norm_num) (by norm_num) (by norm_num) (by norm_num) (by norm_num)
  exact h

/-- C10: a create-report request in which latitude or longitude is absent
or 0 is rejected with the missing-coordinates validation error and no
report is created, because the presence check treats the numeric value 0
as missing. -/
theorem C10_zero_coordinate_rejected :
    ∀ (mlE : Bool) (t d cat addr : Option String) (lat lng : Option Rat)
      (uid : Nat),
      (lat = none ∨ lat = some 0 ∨ lng = none ∨ lng = some 0) →
      createReport mlE t d cat lat lng addr uid =
        { status := 400, error := some "Latitude and longitude are required",
          created := none, queued := false } := by
  intro mlE t d cat addr lat lng uid h
  unfold createReport
  have hf : (jsFalsyNum lat || jsFalsyNum lng) = true := by
    rcases h with h | h | h | h <;> subst h <;> simp [jsFalsyNum]
  simp [hf]

/-- C10 witness: the in-range pair (lat 0, lng 77.59) is rejected with the
missing-coordinates error. -/
theorem C10_zero_coordinate_rejected_witness :
    createReport true none none none (some 0) (some (7759/100)) none 10 =
      { status := 400, error := some "Latitude and longitude are required",
        created := none, queued := false } :=
  C10_zero_coordinate_rejected true none none none none (some 0)
    (some (7759/100)) 10 (Or.inr (Or.inl rfl))

/-! ## Claim C4: webhook on a missing report -/

/-- C4 counterexample: a classification payload whose reportId matches no
stored report leaves the state unchanged but the Reconciler answers 200
(a success response), not a NotFound client error, refuting the claimed
failure mode. -/
theorem C4_webhook_notfound_counterexample :
    (mlWebhook emptyState 1 sampleClassification).2.1 = 200 ∧
    ¬(400 ≤ (mlWebhook emptyState 1 sampleClassification).2.1 ∧
      (mlWebhook emptyState 1 sampleClassification).2.1 < 500) ∧
    (mlWebhook emptyState 1 sampleClassification).1 = emptyState := by
  refine ⟨rfl, by decide, rfl⟩

/-- C4 amended: for a classification payload whose reportId matches no
stored report, no report document is modified, but the handler responds
200 with a null updatedReport (success), not a NotFound client error. -/
theorem C4_webhook_notfound_amended :
    ∀ (s : AppState) (reportId : Nat) (c : Classification),
      findReport s.reports reportId = none →
      mlWebhook s reportId c = (s, 200, none) := by
  intro s reportId c h
  unfold mlWebhook
  rw [h]

/-- C4 witness: concrete instance of the amended claim on empty
collections. -/
theorem C4_webhook_notfound_witness :
    mlWebhook emptyState 2 sampleClassification = (emptyState, 200, none) :=
  C4_webhook_notfound_amended emptyState 2 sampleClassification rfl

/-! ## Claim C3: acknowledge handlers -/

/-- C3 counterexample: the admin-route handler acknowledges a RESOLVED
report — the request succeeds with 200 and the document's status changes
to ACKNOWLEDGED — refuting the claim that a non-SUBMITTED report makes
every acknowledge request fail with the document unchanged. -/
theorem C3_acknowledge_counterexample :
    resolvedReport.reportStatus ≠ ReportStatus.SUBMITTED ∧
    (updateReportAcknowledge [resolvedReport] 1 99 1000).2 = 200 ∧
    (findReport (updateReportAcknowledge [resolvedReport] 1 99 1000).1 1).map
      Report.reportStatus = some .ACKNOWLEDGED := by
  decide

/-- C3 amended: the report-route handler acknowledgeReport enforces the
SUBMITTED guard (failing with 400 and leaving the collection unchanged
otherwise) but stamps only reportStatus, not acknowledgedAt or
acknowledgedBy; the admin-route handler updateReportAcknowledge stamps
isAcknowledged/acknowledgedAt/acknowledgedBy and sets the status to
ACKNOWLEDGED unconditionally for any existing report, whatever its current
status; both answer 404 for an absent report. -/
theorem C3_acknowledge_amended :
    (∀ (db : List Report) (reportId : Nat) (r : Report),
        findReport db reportId = some r → r.reportStatus ≠ .SUBMITTED →
        acknowledgeReport db reportId = (db, 400)) ∧
    (∀ (db : List Report) (reportId : Nat) (r : Report),
        findReport db reportId = some r → r.reportStatus = .SUBMITTED →
        (acknowledgeReport db reportId).2 = 200 ∧
        findReport (acknowledgeReport db reportId).1 reportId =
          some { r with reportStatus := .ACKNOWLEDGED }) ∧
    (∀ (db : List Report) (reportId adminId now : Nat) (r : Report),
        findReport db reportId = some r →
        (updateReportAcknowledge db reportId adminId now).2 = 200 ∧
        findReport (updateReportAcknowledge db reportId adminId now).1 reportId =
          some { r with isAcknowledged := true, acknowledgedAt := some now,
                        acknowledgedBy := some adminId,
                        reportStatus := .ACKNOWLEDGED }) ∧
    (∀ (db : List Report) (reportId : Nat),
        findReport db reportId = none →
        acknowledgeReport db reportId = (db, 404) ∧
        ∀ adminId now : Nat,
          updateReportAcknowledge db reportId adminId now = (db, 404)) := by
  refine ⟨?_, ?_, ?_, ?_⟩
  · intro db reportId r h hs
    unfold acknowledgeReport
    rw [h]
    dsimp only
    rw [if_pos hs]
  · intro db reportId r h hs
    have hcall : acknowledgeReport db reportId =
        (saveReport db { r with reportStatus := .ACKNOWLEDGED }, 200) := by
      unfold acknowledgeReport
      rw [h]
      dsimp only
      rw [if_neg (fun hh => hh hs)]
    rw [hcall]
    exact ⟨rfl, findReport_save_update h rfl⟩
  · intro db reportId adminId now r h
    have hcall : updateReportAcknowledge db reportId adminId now =
        (saveReport db { r with isAcknowledged := true, acknowledgedAt := some now,
                                acknowledgedBy := some adminId,
                                reportStatus := .ACKNOWLEDGED }, 200) := by
      unfold updateReportAcknowledge
      rw [h]
    rw [hcall]
    exact ⟨rfl, findReport_save_update h rfl⟩
  · intro db reportId h
    refine ⟨?_, fun adminId now => ?_⟩
    · unfold acknowledgeReport
      rw [h]
    · unfold updateReportAcknowledge
      rw [h]

/-- C3 witness: acknowledging the concrete SUBMITTED report succeeds and
changes only the status field. -/
theorem C3_acknowledge_witness :
    (acknowledgeReport [baseReport] 1).2 = 200 ∧
    findReport (acknowledgeReport [baseReport] 1).1 1 =
      some { baseReport with reportStatus := .ACKNOWLEDGED } :=
  C3_acknowledge_amended.2.1 [baseReport] 1 baseReport (by decide) (by decide)

/-! ## Claim C9: soft delete and query filters -/

/-- C9 counterexample: after deleting a report it is still returned by the
admin-controller get-all-reports query with status DELETED — that query
carries no reportStatus filter — refuting the claim that every listing
query excludes DELETED reports. -/
theorem C9_soft_delete_counterexample :
    (deleteReport [baseReport] 1).2 = 200 ∧
    (findReport (deleteReport [baseReport] 1).1 1).map Report.reportStatus =
      some .DELETED ∧
    ∃ r ∈ adminGetAllReports (deleteReport [baseReport] 1).1,
      r.reportStatus = .DELETED := by
  refine ⟨by decide, by decide, ?_⟩
  exact ⟨{ baseReport with reportStatus := .DELETED }, by decide, by decide⟩

/-- C9 amended: deleting a report sets its status to DELETED while keeping
the document retrievable by id, and the nearby, bounds, by-department,
user-reports and (default) report-controller get-all-reports queries all
exclude DELETED reports; but the admin-controller get-all-reports query
has no status filter and returns every document, DELETED ones included. -/
theorem C9_soft_delete_amended :
    (∀ (db : List Report) (reportId : Nat) (r : Report),
        findReport db reportId = some r →
        (deleteReport db reportId).2 = 200 ∧
        findReport (deleteReport db reportId).1 reportId =
          some { r with reportStatus := .DELETED }) ∧
    (∀ (db : List Report) (geo : Report → Bool) (r : Report),
        r ∈ getNearbyReports db geo → r.reportStatus ≠ .DELETED) ∧
    (∀ (db : List Report) (box : Report → Bool) (r : Report),
        r ∈ getReportsInBounds db box → r.reportStatus ≠ .DELETED) ∧
    (∀ (db : List Report) (dep : String) (geo : Report → Bool) (r : Report),
        r ∈ getNearbyReportsByDepartment db dep geo →
        r.reportStatus ≠ .DELETED) ∧
    (∀ (db : List Report) (uid : Nat) (r : Report),
        r ∈ getUserReports db uid → r.reportStatus ≠ .DELETED) ∧
    (∀ (db : List Report) (dep : Option String) (r : Report),
        r ∈ getAllReports db none dep → r.reportStatus ≠ .DELETED) ∧
    (∀ db : List Report, adminGetAllReports db = db) := by
  refine ⟨?_, ?_, ?_, ?_, ?_, ?_, fun _ => rfl⟩
  · intro db reportId r h
    have hcall : deleteReport db reportId =
        (saveReport db { r with reportStatus := .DELETED }, 200) := by
      unfold deleteReport
      rw [h]
    rw [hcall]
    exact ⟨rfl, findReport_save_update h rfl⟩
  · intro db geo r h
    simp only [getNearbyReports, List.mem_filter, Bool.and_eq_true,
      decide_eq_true_eq] at h
    exact h.2.1
  · intro db box r h
    simp only [getReportsInBounds, List.mem_filter, Bool.and_eq_true,
      decide_eq_true_eq] at h
    exact h.2.1
  · intro db dep geo r h
    simp only [getNearbyReportsByDepartment, List.mem_filter, Bool.and_eq_true,
      decide_eq_true_eq] at h
    exact h.2.1.1
  · intro db uid r h
    simp only [getUserReports, List.mem_filter, Bool.and_eq_true,
      decide_eq_true_eq] at h
    exact h.2.2
  · intro db dep r h
    simp only [getAllReports, List.mem_filter, Bool.and_eq_true,
      decide_eq_true_eq] at h
    exact h.2.1

/-- C9 witness: deleting the concrete acknowledged report keeps the
document retrievable by direct id lookup with status DELETED. -/
theorem C9_soft_delete_witness :
    (deleteReport [ackReport] 1).2 = 200 ∧
    findReport (deleteReport [ackReport] 1).1 1 =
      some { ackReport with reportStatus := .DELETED } :=
  C9_soft_delete_amended.1 [ackReport] 1 ackReport (by decide)

/-! ## Claim C5: the Reconciler is idempotent and confined -/

/-- C5: applying the same classification payload twice yields the same
state as applying it once; no application changes reportStatus, upvotes,
upvotedBy, or the User collection (hence no points, monthlyPoints or
badge); and the classifier's proposed title is stored into title and
mlTitle exactly when it is non-empty and not the sentinel
title No title. -/
theorem C5_reconciler_idempotent :
    (∀ (s : AppState) (reportId : Nat) (c : Classification),
        (mlWebhook (mlWebhook s reportId c).1 reportId c).1 =
          (mlWebhook s reportId c).1) ∧
    (∀ (s : AppState) (reportId : Nat) (c : Classification),
        (mlWebhook s reportId c).1.users = s.users ∧
        ∀ x : Nat,
          (findReport (mlWebhook s reportId c).1.reports x).map
              (fun r => (r.reportStatus, r.upvotes, r.upvotedBy)) =
            (findReport s.reports x).map
              (fun r => (r.reportStatus, r.upvotes, r.upvotedBy))) ∧
    (∀ (s : AppState) (reportId : Nat) (c : Classification) (r : Report),
        findReport s.reports reportId = some r →
        findReport (mlWebhook s reportId c).1.reports reportId =
          some (applyClassification c r) ∧
        (∀ t : String, c.title = some t → titleOk c = true →
            (applyClassification c r).title = t ∧
            (applyClassification c r).mlTitle = some t) ∧
        (titleOk c = false →
            (applyClassification c r).title = r.title ∧
            (applyClassification c r).mlTitle = r.mlTitle)) := by
  refine ⟨?_, ?_, ?_⟩
  · intro s reportId c
    cases h : findReport s.reports reportId with
    | none =>
      have h1 : mlWebhook s reportId c = (s, 200, none) := by
        unfold mlWebhook
        rw [h]
      rw [h1]
      exact congrArg Prod.fst h1
    | some r =>
      have hid : (applyClassification c r).id = reportId := by
        rw [applyClassification_id]
        exact findReport_some_id h
      have h1 : mlWebhook s reportId c =
          ({ s with reports := saveReport s.reports (applyClassification c r) },
           200, some (applyClassification c r)) := by
        unfold mlWebhook
        rw [h]
      rw [h1]
      have h2 : findReport (saveReport s.reports (applyClassification c r))
          reportId = some (applyClassification c r) :=
        findReport_save_update h (applyClassification_id c r)
      show (mlWebhook { s with reports := saveReport s.reports (applyClassification c r) } reportId c).1 = _
      unfold mlWebhook
      rw [h2]
      dsimp only
      rw [applyClassification_idem, saveReport_saveReport]
  · intro s reportId c
    cases h : findReport s.reports reportId with
    | none =>
      have h1 : mlWebhook s reportId c = (s, 200, none) := by
        unfold mlWebhook
        rw [h]
      rw [h1]
      exact ⟨rfl, fun x => rfl⟩
    | some r =>
      have h1 : mlWebhook s reportId c =
          ({ s with reports := saveReport s.reports (applyClassification c r) },
           200, some (applyClassification c r)) := by
        unfold mlWebhook
        rw [h]
      rw [h1]
      refine ⟨rfl, fun x => ?_⟩
      by_cases hx : x = (applyClassification c r).id
      · subst hx
        rw [findReport_saveReport_self _ _
          (by rw [applyClassification_id, findReport_some_id h, h]; rfl)]
        rw [applyClassification_id, findReport_some_id h, h]
        obtain ⟨hst, hup, hby⟩ := applyClassification_preserves c r
        simp [hst, hup, hby]
      · rw [findReport_saveReport_of_ne _ _ hx]
  · intro s reportId c r h
    have h1 : mlWebhook s reportId c =
        ({ s with reports := saveReport s.reports (applyClassification c r) },
         200, some (applyClassification c r)) := by
      unfold mlWebhook
      rw [h]
    refine ⟨?_, ?_, ?_⟩
    · rw [h1]
      exact findReport_save_update h (applyClassification_id c r)
    · intro t ht htOk
      simp only [applyClassification, htOk, if_true]
      by_cases hc : conflictsOk c <;> simp [hc, ht]
    · intro htOk
      simp only [applyClassification, htOk, Bool.false_eq_true, if_false]
      by_cases hc : conflictsOk c <;> simp [hc]

/-- C5 witness: reconciling the sample classification onto the concrete
submitted report stores it (with the proposed title, which passes the
sentinel guard) and a second application is a no-op. -/
theorem C5_reconciler_idempotent_witness :
    findReport (mlWebhook stateSubmitted 1 sampleClassification).1.reports 1 =
      some (applyClassification sampleClassification baseReport) ∧
    (applyClassification sampleClassification baseReport).title =
      "Deep pothole" ∧
    (applyClassification sampleClassification baseReport).mlTitle =
      some "Deep pothole" := by
  obtain ⟨hfind, htitle, hnot⟩ :=
    C5_reconciler_idempotent.2.2 stateSubmitted 1 sampleClassification
      baseReport (by decide)
  obtain ⟨ht1, ht2⟩ := htitle "Deep pothole" rfl (by decide)
  exact ⟨hfind, ht1, ht2⟩

/-! ## Claim C1: points on resolve -/

/-- C1 counterexample: resolving a SUBMITTED report through the
admin-or-owner route succeeds (status becomes RESOLVED) yet awards the
submitter 0 points, not 20 — that handler never touches the User
collection — refuting the claim that resolving any report in
SUBMITTED or ACKNOWLEDGED awards 20 points to the submitter. -/
theorem C1_points_award_counterexample :
    baseReport.reportStatus = ReportStatus.SUBMITTED ∧
    (resolveReport stateSubmitted 1).2 = 200 ∧
    (findReport (resolveReport stateSubmitted 1).1.reports 1).map
      Report.reportStatus = some .RESOLVED ∧
    (getUser (resolveReport stateSubmitted 1).1.users 10).map User.points =
      some 0 ∧
    (getUser (resolveReport stateSubmitted 1).1.users 10).map User.points ≠
      some 20 := by
  decide

/-- C1 amended: only the owner route updateReportStatusResolve awards
points, and only from status ACKNOWLEDGED (its guard): it then awards
exactly 20 points to the submitter and 5 per occurrence in upvotedBy
(so 5 to each distinct upvoter), adding to points and monthlyPoints and
recomputing each recipient's badge from the new total; a request against
an already-RESOLVED report is rejected and awards nothing on either
route, and the admin-or-owner route resolveReport never awards points. -/
theorem C1_points_award_amended :
    (∀ (s : AppState) (reportId userId : Nat) (r : Report),
        findReport s.reports reportId = some r →
        r.userId = userId → r.reportStatus = .ACKNOWLEDGED →
        (updateReportStatusResolve s reportId userId).2 = 200 ∧
        findReport (updateReportStatusResolve s reportId userId).1.reports
            reportId = some { r with reportStatus := .RESOLVED } ∧
        (∀ x : Nat,
          getUser (updateReportStatusResolve s reportId userId).1.users x =
            (getUser s.users x).map
              (fun u => afterAwards u
                ((if x = r.userId then 20 else 0) + 5 * r.upvotedBy.count x)))) ∧
    (∀ (s : AppState) (reportId userId : Nat) (r : Report),
        findReport s.reports reportId = some r → r.reportStatus = .RESOLVED →
        (updateReportStatusResolve s reportId userId).1 = s ∧
        (updateReportStatusResolve s reportId userId).2 ≠ 200) ∧
    (∀ (s : AppState) (reportId : Nat) (r : Report),
        findReport s.reports reportId = some r → r.reportStatus = .RESOLVED →
        resolveReport s reportId = (s, 400)) ∧
    (∀ (s : AppState) (reportId : Nat),
        (resolveReport s reportId).1.users = s.users) := by
  refine ⟨?_, ?_, ?_, ?_⟩
  · intro s reportId userId r h hu hs
    rw [updateReportStatusResolve_ack h hu hs]
    refine ⟨rfl, findReport_save_update h rfl, fun x => ?_⟩
    exact getUser_resolveAwards s.users r.userId r.upvotedBy x
  · intro s reportId userId r h hs
    unfold updateReportStatusResolve
    rw [h]
    dsimp only
    by_cases hu : r.userId = userId
    · rw [if_neg (fun hh => hh hu),
        if_pos (by rw [hs]; exact fun hh => ReportStatus.noConfusion hh)]
      refine ⟨rfl, ?_⟩
      show (400 : Nat) ≠ 200
      decide
    · rw [if_pos hu]
      refine ⟨rfl, ?_⟩
      show (403 : Nat) ≠ 200
      decide
  · intro s reportId r h hs
    unfold resolveReport
    rw [h]
    dsimp only
    rw [if_pos (by rw [hs]; rintro (hh | hh) <;> exact ReportStatus.noConfusion hh)]
  · intro s reportId
    unfold resolveReport
    cases h : findReport s.reports reportId with
    | none => rfl
    | some r =>
      dsimp only
      split
      · rfl
      · rfl

/-- C1 witness: resolving the concrete ACKNOWLEDGED report through the
owner route answers 200, leaves the submitter with 20 points and the
upvoter with 5 points. -/
theorem C1_points_award_witness :
    (updateReportStatusResolve stateAcknowledged 1 10).2 = 200 ∧
    (getUser (updateReportStatusResolve stateAcknowledged 1 10).1.users 10).map
      User.points = some 20 ∧
    (getUser (updateReportStatusResolve stateAcknowledged 1 10).1.users 11).map
      User.points = some 5 := by
  obtain ⟨h200, hrep, husers⟩ :=
    C1_points_award_amended.1 stateAcknowledged 1 10 ackReport
      (by decide) (by decide) (by decide)
  refine ⟨h200, ?_, ?_⟩
  · rw [husers 10]
    decide
  · rw [husers 11]
    decide

/-! ## Claim C2: the two resolve call sites -/

/-- C2 counterexample: on the same ACKNOWLEDGED report, with both
preconditions satisfied, both resolve routes succeed, but afterwards the
submitter has 0 points under resolveReport and 20 points under
updateReportStatusResolve — so the two paths do not have identical effect
on reputation state. -/
theorem C2_resolve_paths_counterexample :
    (resolveReport stateAcknowledged 1).2 = 200 ∧
    (updateReportStatusResolve stateAcknowledged 1 10).2 = 200 ∧
    (getUser (resolveReport stateAcknowledged 1).1.users 10).map User.points =
      some 0 ∧
    (getUser (updateReportStatusResolve stateAcknowledged 1 10).1.users 10).map
      User.points = some 20 := by
  decide

/-- C2 amended: whenever both preconditions hold (report found, actor owns
it, status ACKNOWLEDGED) the two resolve call sites have identical effect
on the Report collection — both set the status to RESOLVED — but their
reputation effects differ: resolveReport leaves every user unchanged,
while updateReportStatusResolve applies the 20-point submitter award and
the 5-point upvoter awards. -/
theorem C2_resolve_paths_amended :
    ∀ (s : AppState) (reportId userId : Nat) (r : Report),
      findReport s.reports reportId = some r →
      r.userId = userId → r.reportStatus = .ACKNOWLEDGED →
      (resolveReport s reportId).2 = 200 ∧
      (updateReportStatusResolve s reportId userId).2 = 200 ∧
      (resolveReport s reportId).1.reports =
        (updateReportStatusResolve s reportId userId).1.reports ∧
      (resolveReport s reportId).1.users = s.users ∧
      (updateReportStatusResolve s reportId userId).1.users =
        awardUpvoters (awardPoints s.users r.userId 20) r.upvotedBy := by
  intro s reportId userId r h hu hs
  rw [resolveReport_ok h (Or.inr hs), updateReportStatusResolve_ack h hu hs]
  exact ⟨rfl, rfl, rfl, rfl, rfl⟩

/-- C2 witness: concrete instance on the acknowledged fixture state. -/
theorem C2_resolve_paths_witness :
    (resolveReport stateAcknowledged 1).1.reports =
      (updateReportStatusResolve stateAcknowledged 1 10).1.reports ∧
    (resolveReport stateAcknowledged 1).1.users = stateAcknowledged.users := by
  obtain ⟨h1, h2, hrep, husers, hup⟩ :=
    C2_resolve_paths_amended stateAcknowledged 1 10 ackReport
      (by decide) (by decide) (by decide)
  exact ⟨hrep, husers⟩

/-! ## Claim C6: upvote toggle -/

theorem upvoteReport_mem {db : List Report} {reportId userId : Nat} {r : Report}
    (h : findReport db reportId = some r) (hd : r.reportStatus ≠ .DELETED)
    (hm : userId ∈ r.upvotedBy) :
    upvoteReport db reportId userId =
      (saveReport db { r with
          upvotes := r.upvotes - 1,
          upvotedBy := r.upvotedBy.filter (fun i => i != userId) },
       200, some (r.upvotes - 1)) := by
  unfold upvoteReport
  rw [h]
  dsimp only
  rw [if_neg hd, if_pos hm]

theorem upvoteReport_notMem {db : List Report} {reportId userId : Nat}
    {r : Report} (h : findReport db reportId = some r)
    (hd : r.reportStatus ≠ .DELETED) (hm : userId ∉ r.upvotedBy) :
    upvoteReport db reportId userId =
      (saveReport db { r with
          upvotes := r.upvotes + 1,
          upvotedBy := r.upvotedBy ++ [userId] },
       200, some (r.upvotes + 1)) := by
  unfold upvoteReport
  rw [h]
  dsimp only
  rw [if_neg hd, if_neg hm]

/-- C6 counterexample: on a report document whose stored upvotes counter
is 0 while upvotedBy contains the caller, the removal branch drives
upvotes to -1 — there is no floor at 0 in the code. -/
theorem C6_upvote_toggle_counterexample :
    (upvoteReport [{ baseReport with upvotes := 0, upvotedBy := [5] }] 1 5).2.1
      = 200 ∧
    (findReport
        (upvoteReport [{ baseReport with upvotes := 0, upvotedBy := [5] }] 1 5).1
        1).map Report.upvotes = some (-1) ∧
    (-1 : Int) < 0 := by
  decide

/-- C6 amended: the upvote toggle is an involution — toggling the same
(report, user) pair twice returns the upvote count to its original value
and leaves the membership of upvotedBy unchanged; each call returns the
new count (old count minus one on removal, plus one on addition, with no
explicit floor); for any report satisfying the maintained invariant
upvotes = length of upvotedBy the result never goes below 0; an absent
report yields 404 and a DELETED report 400, both leaving the collection
unchanged. -/
theorem C6_upvote_toggle_amended :
    (∀ (db : List Report) (reportId userId : Nat) (r : Report),
        findReport db reportId = some r → r.reportStatus ≠ .DELETED →
        ∃ r2 : Report,
          findReport
              (upvoteReport (upvoteReport db reportId userId).1 reportId
                userId).1 reportId = some r2 ∧
          r2.upvotes = r.upvotes ∧
          (∀ x : Nat, x ∈ r2.upvotedBy ↔ x ∈ r.upvotedBy)) ∧
    (∀ (db : List Report) (reportId userId : Nat) (r : Report),
        findReport db reportId = some r → r.reportStatus ≠ .DELETED →
        ∃ r1 : Report,
          findReport (upvoteReport db reportId userId).1 reportId = some r1 ∧
          (upvoteReport db reportId userId).2.1 = 200 ∧
          (upvoteReport db reportId userId).2.2 = some r1.upvotes ∧
          r1.upvotes =
            (if userId ∈ r.upvotedBy then r.upvotes - 1 else r.upvotes + 1)) ∧
    (∀ (db : List Report) (reportId userId : Nat) (r : Report),
        findReport db reportId = some r → r.reportStatus ≠ .DELETED →
        r.upvotes = r.upvotedBy.length →
        ∀ r1 : Report,
          findReport (upvoteReport db reportId userId).1 reportId = some r1 →
          0 ≤ r1.upvotes) ∧
    (∀ (db : List Report) (reportId userId : Nat),
        findReport db reportId = none →
        upvoteReport db reportId userId = (db, 404, none)) ∧
    (∀ (db : List Report) (reportId userId : Nat) (r : Report),
        findReport db reportId = some r → r.reportStatus = .DELETED →
        upvoteReport db reportId userId = (db, 400, none)) := by
  refine ⟨?_, ?_, ?_, ?_, ?_⟩
  · intro db reportId userId r h hd
    by_cases hm : userId ∈ r.upvotedBy
    · rw [upvoteReport_mem h hd hm]
      have hfind1 : findReport
          (saveReport db { r with
            upvotes := r.upvotes - 1,
            upvotedBy := r.upvotedBy.filter (fun i => i != userId) }) reportId =
          some { r with
            upvotes := r.upvotes - 1,
            upvotedBy := r.upvotedBy.filter (fun i => i != userId) } :=
        findReport_save_update h rfl
      have hm1 : userId ∉ r.upvotedBy.filter (fun i => i != userId) := by
        simp [List.mem_filter]
      rw [upvoteReport_notMem hfind1 hd hm1]
      refine ⟨_, findReport_save_update hfind1 rfl, ?_, fun x => ?_⟩
      · show r.upvotes - 1 + 1 = r.upvotes
        omega
      · show x ∈ r.upvotedBy.filter (fun i => i != userId) ++ [userId] ↔
          x ∈ r.upvotedBy
        by_cases hx : x = userId
        · subst hx
          simp [hm]
        · simp [List.mem_filter, hx]
    · rw [upvoteReport_notMem h hd hm]
      have hfind1 : findReport
          (saveReport db { r with
            upvotes := r.upvotes + 1,
            upvotedBy := r.upvotedBy ++ [userId] }) reportId =
          some { r with
            upvotes := r.upvotes + 1,
            upvotedBy := r.upvotedBy ++ [userId] } :=
        findReport_save_update h rfl
      have hm1 : userId ∈ r.upvotedBy ++ [userId] := by simp
      rw [upvoteReport_mem hfind1 hd hm1]
      have hfil : (r.upvotedBy ++ [userId]).filter (fun i => i != userId) =
          r.upvotedBy := by
        rw [List.filter_append]
        have h1 : r.upvotedBy.filter (fun i => i != userId) = r.upvotedBy :=
          List.filter_eq_self.mpr (fun a ha => by
            simp only [bne_iff_ne, ne_eq, decide_eq_true_eq]
            exact fun hh => hm (hh ▸ ha))
        have h2 : [userId].filter (fun i => i != userId) = ([] : List Nat) := by
          simp
        rw [h1, h2, List.append_nil]
      refine ⟨_, findReport_save_update hfind1 rfl, ?_, fun x => ?_⟩
      · show r.upvotes + 1 - 1 = r.upvotes
        omega
      · show x ∈ (r.upvotedBy ++ [userId]).filter (fun i => i != userId) ↔
          x ∈ r.upvotedBy
        rw [hfil]
  · intro db reportId userId r h hd
    by_cases hm : userId ∈ r.upvotedBy
    · rw [upvoteReport_mem h hd hm]
      exact ⟨_, findReport_save_update h rfl, rfl, rfl, by rw [if_pos hm]⟩
    · rw [upvoteReport_notMem h hd hm]
      exact ⟨_, findReport_save_update h rfl, rfl, rfl, by rw [if_neg hm]⟩
  · intro db reportId userId r h hd hinv r1 hfind1
    by_cases hm : userId ∈ r.upvotedBy
    · rw [upvoteReport_mem h hd hm] at hfind1
      dsimp only at hfind1
      have h2 : findReport (saveReport db { r with
          upvotes := r.upvotes - 1,
          upvotedBy := r.upvotedBy.filter (fun i => i != userId) }) reportId =
          some { r with
            upvotes := r.upvotes - 1,
            upvotedBy := r.upvotedBy.filter (fun i => i != userId) } :=
        findReport_save_update h rfl
      rw [h2] at hfind1
      injection hfind1 with hh
      have hlen : 0 < r.upvotedBy.length :=
        List.length_pos.mpr (List.ne_nil_of_mem hm)
      have hval : r1.upvotes = r.upvotes - 1 := by rw [← hh]
      rw [hval, hinv]
      omega
    · rw [upvoteReport_notMem h hd hm] at hfind1
      dsimp only at hfind1
      have h2 : findReport (saveReport db { r with
          upvotes := r.upvotes + 1,
          upvotedBy := r.upvotedBy ++ [userId] }) reportId =
          some { r with
            upvotes := r.upvotes + 1,
            upvotedBy := r.upvotedBy ++ [userId] } :=
        findReport_save_update h rfl
      rw [h2] at hfind1
      injection hfind1 with hh
      have hval : r1.upvotes = r.upvotes + 1 := by rw [← hh]
      rw [hval, hinv]
      omega
  · intro db reportId userId h
    unfold upvoteReport
    rw [h]
  · intro db reportId userId r h hd
    unfold upvoteReport
    rw [h]
    dsimp only
    rw [if_pos hd]

/-- C6 witness: toggling user 11 off the concrete acknowledged report
(which they upvoted) answers 200 and returns the new count 0. -/
theorem C6_upvote_toggle_witness :
    (upvoteReport [ackReport] 1 11).2.1 = 200 ∧
    (upvoteReport [ackReport] 1 11).2.2 = some 0 := by
  obtain ⟨r1, hfind, h200, hret, hval⟩ :=
    C6_upvote_toggle_amended.2.1 [ackReport] 1 11 ackReport
      (by decide) (by decide)
  refine ⟨h200, ?_⟩
  rw [hret, hval]
  decide

end Sih
